import Mathlib

/-!
Shallow embedding of the nuclear cross-section lookup module
(`lib/cross_sections.py`): the shared energy table, the per-material
elastic and inelastic cross-section tables, the material records and the
lookup and interpolation functions. Floating-point numbers are modelled
as exact rationals; the nuclear radius parameter, which the source builds
with a real cube root, is modelled over the reals.
-/

namespace CrossSections

/-- Energy in GeV: the shared table of 59 sample points (source line 5). -/
def energy : List ℚ :=
  [0.0005, 0.001, 0.0015, 0.002, 0.0025, 0.003, 0.0035, 0.004, 0.0045,
   0.005, 0.0055, 0.006, 0.0065, 0.007, 0.0075, 0.008, 0.009, 0.01,
   0.011, 0.012, 0.013, 0.014, 0.015, 0.0175, 0.02, 0.0225, 0.025, 0.03,
   0.035, 0.04, 0.045, 0.05, 0.051, 0.055, 0.06, 0.07, 0.08, 0.09, 0.1,
   0.11, 0.12, 0.14, 0.16, 0.18, 0.2, 0.225, 0.25, 0.275, 0.3, 0.325,
   0.35, 0.375, 0.4, 0.5, 0.7, 1.0, 1.5, 2.0, 2.5]

/-- Elastic cross sections for atomic number Z=6. -/
def z6_elastic : List ℚ :=
  [0.0, 0.0, 0.0, 0.0, 0.0, 0.321, 0.335, 0.349, 0.363, 0.377, 0.386,
   0.395, 0.404, 0.413, 0.423, 0.434, 0.456, 0.479, 0.509, 0.539, 0.569,
   0.598, 0.628, 0.685, 0.743, 0.783, 0.822, 0.878, 0.915, 0.938, 0.813,
   0.688, 0.678, 0.641, 0.594, 0.515, 0.448, 0.392, 0.345, 0.305, 0.272,
   0.214, 0.167, 0.138, 0.117, 0.098, 0.085, 0.077, 0.072, 0.068, 0.067,
   0.066, 0.067, 0.077, 0.09, 0.102, 0.108, 0.114, 0.113]

/-- Inelastic cross sections for atomic number Z=6. -/
def z6_inelastic : List ℚ :=
  [0, 0, 0, 0, 0, 0, 0, 0, 0, 0.013, 0.078, 0.131, 0.175, 0.212, 0.244,
   0.271, 0.314, 0.346, 0.370, 0.389, 0.403, 0.413, 0.421, 0.432, 0.434,
   0.432, 0.427, 0.412, 0.394, 0.376, 0.359, 0.344, 0.288, 0.281, 0.272,
   0.257, 0.245, 0.235, 0.228, 0.223, 0.220, 0.223, 0.213, 0.212, 0.212,
   0.212, 0.213, 0.214, 0.216, 0.217, 0.219, 0.221, 0.223, 0.229, 0.246,
   0.261, 0.261, 0.257, 0.255]

/-- Elastic cross sections for atomic number Z=13. -/
def z13_elastic : List ℚ :=
  [0, 0, 0, 0, 0, 0.091, 0.164, 0.237, 0.311, 0.384, 0.428, 0.473,
   0.518, 0.562, 0.607, 0.623, 0.654, 0.686, 0.692, 0.699, 0.701, 0.700,
   0.700, 0.707, 0.714, 0.737, 0.761, 0.832, 0.905, 0.976, 0.993, 1.010,
   1.007, 0.994, 0.979, 0.921, 0.854, 0.786, 0.720, 0.658, 0.601, 0.490,
   0.382, 0.320, 0.274, 0.231, 0.202, 0.181, 0.167, 0.159, 0.153, 0.151,
   0.151, 0.170, 0.198, 0.220, 0.232, 0.243, 0.242]

/-- Inelastic cross sections for atomic number Z=13. -/
def z13_inelastic : List ℚ :=
  [0, 0, 0, 0, 0.123, 0.280, 0.391, 0.474, 0.537, 0.587, 0.626, 0.658,
   0.684, 0.705, 0.722, 0.736, 0.757, 0.771, 0.780, 0.785, 0.787, 0.787,
   0.786, 0.777, 0.764, 0.749, 0.732, 0.699, 0.667, 0.638, 0.611, 0.587,
   0.530, 0.518, 0.503, 0.478, 0.456, 0.437, 0.422, 0.410, 0.402, 0.397,
   0.394, 0.393, 0.392, 0.393, 0.395, 0.397, 0.399, 0.402, 0.405, 0.408,
   0.411, 0.415, 0.438, 0.457, 0.460, 0.454, 0.450]

/-- Elastic cross sections for atomic number Z=26. -/
def z26_elastic : List ℚ :=
  [0, 0, 0, 0, 0, 0.001, 0.015, 0.030, 0.045, 0.059, 0.109, 0.159,
   0.209, 0.259, 0.309, 0.364, 0.474, 0.584, 0.668, 0.753, 0.819, 0.867,
   0.915, 0.964, 1.013, 1.030, 1.047, 1.063, 1.075, 1.098, 1.121, 1.143,
   1.153, 1.192, 1.240, 1.293, 1.306, 1.289, 1.250, 1.198, 1.137, 0.984,
   0.777, 0.669, 0.582, 0.499, 0.438, 0.393, 0.361, 0.340, 0.325, 0.317,
   0.314, 0.346, 0.389, 0.425, 0.444, 0.461, 0.460]

/-- Inelastic cross sections for atomic number Z=26. -/
def z26_inelastic : List ℚ :=
  [0, 0, 0, 0, 0, 0, 0, 0.017, 0.174, 0.301, 0.404, 0.490, 0.562,
   0.623, 0.676, 0.721, 0.795, 0.852, 0.896, 0.931, 0.959, 0.981, 0.999,
   1.028, 1.044, 1.05, 1.05, 1.04, 1.021, 0.999, 0.976, 0.952, 0.920,
   0.899, 0.873, 0.834, 0.790, 0.753, 0.719, 0.698, 0.685, 0.672, 0.677,
   0.674, 0.673, 0.674, 0.675, 0.678, 0.681, 0.685, 0.689, 0.693, 0.697,
   0.679, 0.710, 0.735, 0.744, 0.740, 0.739]

/-- Elastic cross sections for atomic number Z=29. -/
def z29_elastic : List ℚ :=
  [0, 0, 0, 0, 0, 0, 0.017, 0.025, 0.033, 0.077, 0.121, 0.165, 0.208,
   0.252, 0.310, 0.426, 0.541, 0.634, 0.726, 0.800, 0.855, 0.910, 0.971,
   1.033, 1.058, 1.083, 1.113, 1.132, 1.156, 1.161, 1.165, 1.175, 1.216,
   1.268, 1.337, 1.368, 1.368, 1.343, 1.300, 1.245, 1.092, 0.869, 0.752,
   0.657, 0.565, 0.496, 0.446, 0.410, 0.384, 0.368, 0.358, 0.353, 0.385,
   0.429, 0.468, 0.488, 0.505, 0.504]

/-- Inelastic cross sections for atomic number Z=29. -/
def z29_inelastic : List ℚ :=
  [0, 0, 0, 0, 0, 0, 0, 0.063, 0.225, 0.354, 0.460, 0.548, 0.622,
   0.685, 0.739, 0.786, 0.862, 0.920, 0.966, 1.003, 1.032, 1.055, 1.073,
   1.104, 1.121, 1.128, 1.128, 1.118, 1.100, 1.077, 1.053, 1.029, 0.986,
   0.966, 0.942, 0.902, 0.859, 0.822, 0.788, 0.765, 0.749, 0.732, 0.736,
   0.733, 0.732, 0.732, 0.734, 0.737, 0.740, 0.744, 0.748, 0.752, 0.756,
   0.736, 0.768, 0.794, 0.805, 0.804, 0.806]

/-- Elastic cross sections for atomic number Z=73. -/
def z73_elastic : List ℚ :=
  [0, 0, 0, 0, 0, 0, 0, 0, 0, 0, 0, 0, 0, 0, 0, 0.004, 0.011, 0.019,
   0.072, 0.126, 0.207, 0.316, 0.425, 0.704, 0.982, 1.124, 1.266, 1.401,
   1.506, 1.586, 1.593, 1.600, 1.608, 1.639, 1.679, 1.773, 1.884, 2.001,
   2.109, 2.198, 2.261, 2.255, 1.984, 1.831, 1.679, 1.506, 1.359, 1.240,
   1.146, 1.07, 1.022, 0.985, 0.963, 0.997, 1.053, 1.119, 1.186, 1.193,
   1.192]

/-- Inelastic cross sections for atomic number Z=73. -/
def z73_inelastic : List ℚ :=
  [0, 0, 0, 0, 0, 0, 0, 0, 0, 0, 0, 0, 0, 0, 0, 0.012, 0.286, 0.505,
   0.685, 0.833, 0.958, 1.065, 1.156, 1.334, 1.462, 1.557, 1.628, 1.723,
   1.779, 1.810, 1.825, 1.831, 1.824, 1.823, 1.821, 1.807, 1.784, 1.761,
   1.736, 1.705, 1.676, 1.629, 1.604, 1.591, 1.578, 1.574, 1.568, 1.564,
   1.560, 1.555, 1.551, 1.546, 1.541, 1.549, 1.599, 1.641, 1.666, 1.669,
   1.674]

/-- Elastic cross sections for atomic number Z=74. -/
def z74_elastic : List ℚ :=
  [0, 0, 0, 0, 0, 0, 0, 0, 0, 0, 0, 0, 0, 0, 0, 0.003, 0.010, 0.017,
   0.067, 0.118, 0.197, 0.305, 0.412, 0.694, 0.975, 1.121, 1.267, 1.404,
   1.511, 1.591, 1.600, 1.610, 1.618, 1.649, 1.689, 1.782, 1.893, 2.010,
   2.120, 2.211, 2.276, 2.275, 2.006, 1.852, 1.700, 1.526, 1.378, 1.258,
   1.163, 1.090, 1.037, 1.000, 0.977, 1.011, 1.067, 1.134, 1.171, 1.209,
   1.207]

/-- Inelastic cross sections for atomic number Z=74. -/
def z74_inelastic : List ℚ :=
  [0, 0, 0, 0, 0, 0, 0, 0, 0, 0, 0, 0, 0, 0, 0, 0, 0.265, 0.489, 0.672,
   0.823, 0.951, 1.059, 1.152, 1.334, 1.465, 1.562, 1.635, 1.733, 1.790,
   1.823, 1.840, 1.846, 1.840, 1.839, 1.838, 1.825, 1.804, 1.782, 1.759,
   1.728, 1.700, 1.653, 1.626, 1.612, 1.599, 1.594, 1.588, 1.583, 1.578,
   1.573, 1.568, 1.562, 1.557, 1.568, 1.618, 1.659, 1.686, 1.689, 1.693]

/-- Elastic cross sections for atomic number Z=78 (newer table). -/
def z78_elastic : List ℚ :=
  [0, 0, 0, 0, 0, 0, 0, 0, 0, 0, 0, 0, 0, 0, 0, 0.002, 0.007, 0.011,
   0.053, 0.095, 0.166, 0.267, 0.368, 0.660, 0.951, 1.110, 1.268, 1.414,
   1.527, 1.611, 1.628, 1.644, 1.652, 1.684, 1.724, 1.815, 1.926, 2.044,
   2.159, 2.257, 2.330, 2.344, 2.082, 1.930, 1.776, 1.599, 1.447, 1.323,
   1.224, 1.148, 1.093, 1.053, 1.029, 1.063, 1.120, 1.188, 1.226, 1.265,
   1.263]

/-- Inelastic cross sections for atomic number Z=78 (newer table). -/
def z78_inelastic : List ℚ :=
  [0, 0, 0, 0, 0, 0, 0, 0, 0, 0, 0, 0, 0, 0, 0, 0, 0.176, 0.415, 0.611,
   0.774, 0.911, 1.028, 1.128, 1.325, 1.467, 1.573, 1.653, 1.762, 1.827,
   1.866, 1.888, 1.898, 1.947, 1.935, 1.920, 1.896, 1.867, 1.833, 1.799,
   1.762, 1.729, 1.678, 1.658, 1.649, 1.641, 1.639, 1.638, 1.637, 1.637,
   1.637, 1.637, 1.637, 1.638, 1.633, 1.684, 1.727, 1.755, 1.758, 1.763]

/-- Elastic cross sections for atomic number Z=82. -/
def z82_elastic : List ℚ :=
  [0, 0, 0, 0, 0, 0, 0, 0, 0, 0, 0, 0, 0, 0, 0, 0.001, 0.004, 0.007,
   0.040, 0.074, 0.138, 0.231, 0.325, 0.625, 0.925, 1.097, 1.270, 1.426,
   1.545, 1.633, 1.659, 1.684, 1.692, 1.725, 1.765, 1.853, 1.962, 2.083,
   2.203, 2.309, 2.392, 2.423, 2.170, 2.020, 1.865, 1.685, 1.528, 1.399,
   1.296, 1.216, 1.158, 1.116, 1.090, 1.124, 1.181, 1.251, 1.291, 1.330,
   1.328]

/-- Inelastic cross sections for atomic number Z=82. -/
def z82_inelastic : List ℚ :=
  [0, 0, 0, 0, 0, 0, 0, 0, 0, 0, 0, 0, 0, 0, 0, 0, 0.090, 0.346, 0.556,
   0.731, 0.878, 1.004, 1.112, 1.325, 1.479, 1.594, 1.682, 1.803, 1.877,
   1.922, 1.948, 1.962, 2.074, 2.048, 2.015, 1.979, 1.939, 1.892, 1.845,
   1.801, 1.762, 1.706, 1.695, 1.691, 1.690, 1.691, 1.695, 1.699, 1.705,
   1.712, 1.718, 1.725, 1.733, 1.711, 1.763, 1.807, 1.836, 1.840, 1.845]

/-- Material record (class `MP` of the source). The source stores the
field `R` directly as `0.94 * pow(Rarg, 1/3)` for a numeric literal
`Rarg`; here `Rarg` records that literal exactly and `MP.R` below builds
the real value, so that the rest of the record stays exact rational
data. -/
structure MP where
  z : ℚ
  a : ℚ
  rho : ℚ
  radlength : ℚ
  Rarg : ℚ
  ecross : List ℚ
  icross : List ℚ

/-- The stored nuclear radius parameter of a material:
`0.94 * pow(Rarg, 1/3)` as in each constructor call of the source. -/
noncomputable def MP.R (m : MP) : ℝ := 0.94 * (m.Rarg : ℝ) ^ ((1 : ℝ) / 3)

/-- Source line 67. -/
def carbon : MP := ⟨6.0, 12.01, 2.27e3, 18.8 / 100, 12.01, z6_elastic, z6_inelastic⟩

/-- Source line 68. -/
def aluminum : MP := ⟨13.0, 26.92, 2.7e3, 8.9 / 100, 26.92, z13_elastic, z13_inelastic⟩

/-- Source line 69. -/
def iron : MP := ⟨26, 55.85, 7.87e3, 1.76 / 100, 55.85, z26_elastic, z26_inelastic⟩

/-- Source line 70: note the `pow` argument 63.55 differs from the
stored atomic weight 63.546. -/
def copper : MP := ⟨29, 63.546, 8.96e3, 1.43 / 100, 63.55, z29_elastic, z29_inelastic⟩

/-- Source line 71. -/
def tantalum : MP := ⟨73, 180.95, 16.6e3, 0.411 / 100, 180.95, z73_elastic, z73_inelastic⟩

/-- Source line 72 (spelling as in the source). -/
def tungstun : MP := ⟨74, 183.84, 19.3e3, 0.35 / 100, 183.84, z74_elastic, z74_inelastic⟩

/-- Source line 73. -/
def platinum : MP := ⟨78, 195.08, 21.45e3, 0.305 / 100, 195.08, z78_elastic, z78_inelastic⟩

/-- Source line 74. -/
def lead : MP := ⟨82, 207.2, 11.35e3, 0.56 / 100, 207.2, z82_elastic, z82_inelastic⟩

/-- Dispatch of `get_z` (source lines 77-95): an if/elif chain whose
`else` branch yields lead. -/
def get_z (ma_index : ℤ) : ℚ :=
  if ma_index = 0 then carbon.z
  else if ma_index = 1 then aluminum.z
  else if ma_index = 2 then iron.z
  else if ma_index = 3 then copper.z
  else if ma_index = 4 then tantalum.z
  else if ma_index = 5 then tungstun.z
  else if ma_index = 6 then platinum.z
  else lead.z

/-- Dispatch of `get_a` (source lines 98-116); the source returns
numeric literals here, which coincide with the stored `a` fields. -/
def get_a (ma_index : ℤ) : ℚ :=
  if ma_index = 0 then 12.01
  else if ma_index = 1 then 26.92
  else if ma_index = 2 then 55.85
  else if ma_index = 3 then 63.546
  else if ma_index = 4 then 180.95
  else if ma_index = 5 then 183.84
  else if ma_index = 6 then 195.08
  else 207.2

/-- Dispatch of `get_rho` (source lines 119-137). -/
def get_rho (ma_index : ℤ) : ℚ :=
  if ma_index = 0 then carbon.rho
  else if ma_index = 1 then aluminum.rho
  else if ma_index = 2 then iron.rho
  else if ma_index = 3 then copper.rho
  else if ma_index = 4 then tantalum.rho
  else if ma_index = 5 then tungstun.rho
  else if ma_index = 6 then platinum.rho
  else lead.rho

/-- Dispatch of `get_radlength` (source lines 140-158). -/
def get_radlength (ma_index : ℤ) : ℚ :=
  if ma_index = 0 then carbon.radlength
  else if ma_index = 1 then aluminum.radlength
  else if ma_index = 2 then iron.radlength
  else if ma_index = 3 then copper.radlength
  else if ma_index = 4 then tantalum.radlength
  else if ma_index = 5 then tungstun.radlength
  else if ma_index = 6 then platinum.radlength
  else lead.radlength

/-- The elastic curve chosen by `get_elastic_crosssection`
(source lines 164-179). -/
def elasticTable (ma_index : ℤ) : List ℚ :=
  if ma_index = 0 then carbon.ecross
  else if ma_index = 1 then aluminum.ecross
  else if ma_index = 2 then iron.ecross
  else if ma_index = 3 then copper.ecross
  else if ma_index = 4 then tantalum.ecross
  else if ma_index = 5 then tungstun.ecross
  else if ma_index = 6 then platinum.ecross
  else lead.ecross

/-- The inelastic curve chosen by `get_inelastic_crosssection`
(source lines 198-213). -/
def inelasticTable (ma_index : ℤ) : List ℚ :=
  if ma_index = 0 then carbon.icross
  else if ma_index = 1 then aluminum.icross
  else if ma_index = 2 then iron.icross
  else if ma_index = 3 then copper.icross
  else if ma_index = 4 then tantalum.icross
  else if ma_index = 5 then tungstun.icross
  else if ma_index = 6 then platinum.icross
  else lead.icross

/-- The bin scan of the source (lines 183-187 and 217-221):
`ilow = 57; for i in range(58): if energyrequest <= energy[i+1]: ilow = i; break`.
`fuel` counts the iterations still to run; `ilowOf` starts it with
`fuel = 58`, `i = 0`, so exhaustion leaves the initial value 57. -/
def scanLow (e : ℚ) : ℕ → ℕ → ℕ
  | 0, _ => 57
  | fuel + 1, i => if e ≤ energy.getD (i + 1) 0 then i else scanLow e fuel (i + 1)

/-- The lower bin index selected for a requested energy. -/
def ilowOf (e : ℚ) : ℕ := scanLow e 58 0

/-- The interpolation fraction of the source (lines 189 and 223). -/
def efracOf (e : ℚ) : ℚ :=
  (e - energy.getD (ilowOf e) 0) /
    (energy.getD (ilowOf e + 1) 0 - energy.getD (ilowOf e) 0)

/-- The interpolation formula shared by both lookups
(source lines 191 and 225). -/
def interpolate (tab : List ℚ) (e : ℚ) : ℚ :=
  tab.getD (ilowOf e) 0 + efracOf e * (tab.getD (ilowOf e + 1) 0 - tab.getD (ilowOf e) 0)

/-- `get_elastic_crosssection` (source lines 161-193). -/
def get_elastic_crosssection (energyrequest : ℚ) (ma_index : ℤ) : ℚ :=
  interpolate (elasticTable ma_index) energyrequest

/-- `get_inelastic_crosssection` (source lines 196-227). -/
def get_inelastic_crosssection (energyrequest : ℚ) (ma_index : ℤ) : ℚ :=
  interpolate (inelasticTable ma_index) energyrequest

/-- The two curve reads `tab[i]` and `tab[i+1]` of a lookup, as numpy
performs them: an index beyond the end of the array raises IndexError,
modelled as `none`. -/
def readPair (tab : List ℚ) (i : ℕ) : Option (ℚ × ℚ) := do
  let c ← tab.get? i
  let d ← tab.get? (i + 1)
  pure (c, d)

/-- `get_elastic_crosssection` with the curve reads checked as numpy
checks them: `none` models the IndexError raised on an out-of-range
access. -/
def get_elastic_crosssection? (energyrequest : ℚ) (ma_index : ℤ) : Option ℚ :=
  (readPair (elasticTable ma_index) (ilowOf energyrequest)).map
    (fun p => p.1 + efracOf energyrequest * (p.2 - p.1))

/-- `get_inelastic_crosssection` with the curve reads checked as numpy
checks them. -/
def get_inelastic_crosssection? (energyrequest : ℚ) (ma_index : ℤ) : Option ℚ :=
  (readPair (inelasticTable ma_index) (ilowOf energyrequest)).map
    (fun p => p.1 + efracOf energyrequest * (p.2 - p.1))

/-! Definitions written from the wording of the specification, for the
refinement claims. -/

/-- Modelled from the spec: the lower bin index is the first `i` in 0..57,
scanned in increasing order, with `requestedEnergy <= energyTable[i+1]`,
defaulting to 57 when no such index exists. -/
def specIlow (e : ℚ) : ℕ :=
  ((List.range 58).find? fun i => decide (e ≤ energy.getD (i + 1) 0)).getD 57

/-- Modelled from the spec: result is
`curve[ilow] + efrac * (curve[ilow+1] - curve[ilow])` with
`efrac = (e - energyTable[ilow]) / (energyTable[ilow+1] - energyTable[ilow])`,
with no clamping of efrac. -/
def crossSectionSpec (e : ℚ) (curve : List ℚ) : ℚ :=
  curve.getD (specIlow e) 0 +
    ((e - energy.getD (specIlow e) 0) /
        (energy.getD (specIlow e + 1) 0 - energy.getD (specIlow e) 0)) *
      (curve.getD (specIlow e + 1) 0 - curve.getD (specIlow e) 0)

/-- Modelled from the spec: `properties(selector)` with the mapping
0=carbon, 1=aluminum, 2=iron, 3=copper, 4=tantalum, 5=tungsten,
6=platinum, 7=lead. -/
def propertiesSpec (selector : ℤ) : MP :=
  if selector = 0 then carbon
  else if selector = 1 then aluminum
  else if selector = 2 then iron
  else if selector = 3 then copper
  else if selector = 4 then tantalum
  else if selector = 5 then tungstun
  else if selector = 6 then platinum
  else lead

/-! Basic properties of the bin scan. -/

theorem scanLow_le (e : ℚ) : ∀ fuel i : ℕ, fuel + i ≤ 58 → scanLow e fuel i ≤ 57 := by
  intro fuel
  induction fuel with
  | zero => intro i _; simp [scanLow]
  | succ n ih =>
    intro i h
    simp only [scanLow]
    split
    · omega
    · exact ih (i + 1) (by omega)

theorem scanLow_prev (e : ℚ) : ∀ fuel i : ℕ, fuel + i = 58 →
    (∀ k, k < i → energy.getD (k + 1) 0 < e) →
    ∀ k, k < scanLow e fuel i → energy.getD (k + 1) 0 < e := by
  intro fuel
  induction fuel with
  | zero =>
    intro i hfi hpre k hk
    simp only [scanLow] at hk
    exact hpre k (by omega)
  | succ n ih =>
    intro i hfi hpre k hk
    simp only [scanLow] at hk
    by_cases hle : e ≤ energy.getD (i + 1) 0
    · rw [if_pos hle] at hk
      exact hpre k hk
    · rw [if_neg hle] at hk
      refine ih (i + 1) (by omega) (fun j hj => ?_) k hk
      rcases Nat.lt_succ_iff_lt_or_eq.mp hj with h | h
      · exact hpre j h
      · subst h; exact lt_of_not_le hle

theorem scanLow_found (e : ℚ) (hhi : e ≤ energy.getD 58 0) :
    ∀ fuel i : ℕ, fuel + i = 58 → e ≤ energy.getD (scanLow e fuel i + 1) 0 := by
  intro fuel
  induction fuel with
  | zero => intro i _; simpa [scanLow] using hhi
  | succ n ih =>
    intro i hfi
    simp only [scanLow]
    split
    · assumption
    · exact ih (i + 1) (by omega)

theorem scanLow_lb (e : ℚ) : ∀ fuel i : ℕ, fuel + i = 58 → min i 57 ≤ scanLow e fuel i := by
  intro fuel
  induction fuel with
  | zero => intro i hfi; simp only [scanLow]; omega
  | succ n ih =>
    intro i hfi
    simp only [scanLow]
    split
    · omega
    · exact le_trans (by omega) (ih (i + 1) (by omega))

theorem scanLow_ge (e : ℚ) : ∀ fuel i : ℕ, fuel + i = 58 → ∀ r, r ≤ 57 →
    (∀ k, i ≤ k → k < r → energy.getD (k + 1) 0 < e) → r ≤ scanLow e fuel i := by
  intro fuel
  induction fuel with
  | zero =>
    intro i _ r hr _
    simp only [scanLow]
    omega
  | succ n ih =>
    intro i hfi r hr hpre
    simp only [scanLow]
    by_cases hle : e ≤ energy.getD (i + 1) 0
    · rw [if_pos hle]
      by_contra hri
      exact absurd hle (not_le_of_lt (hpre i le_rfl (by omega)))
    · rw [if_neg hle]
      rcases le_or_lt r i with h | h
      · have hlb := scanLow_lb e n (i + 1) (by omega)
        omega
      · exact ih (i + 1) (by omega) r hr (fun k hk hk2 => hpre k (by omega) hk2)

theorem ilow_le (e : ℚ) : ilowOf e ≤ 57 := scanLow_le e 58 0 (by omega)

theorem ilow_prev (e : ℚ) : ∀ k, k < ilowOf e → energy.getD (k + 1) 0 < e :=
  scanLow_prev e 58 0 rfl (fun k hk => absurd hk (Nat.not_lt_zero k))

theorem ilow_found (e : ℚ) (hhi : e ≤ energy.getD 58 0) :
    e ≤ energy.getD (ilowOf e + 1) 0 :=
  scanLow_found e hhi 58 0 rfl

theorem ilow_mono {e1 e2 : ℚ} (h : e1 ≤ e2) : ilowOf e1 ≤ ilowOf e2 :=
  scanLow_ge e2 58 0 rfl (ilowOf e1) (ilow_le e1)
    (fun k _ hk => lt_of_lt_of_le (ilow_prev e1 k hk) h)

set_option maxRecDepth 40000 in
theorem energy_strictInc : ∀ k : ℕ, k < 58 → energy.getD k 0 < energy.getD (k + 1) 0 := by
  with_unfolding_all decide

theorem ilow_lower (e : ℚ) (hlo : energy.getD 0 0 ≤ e) :
    energy.getD (ilowOf e) 0 ≤ e := by
  cases h : ilowOf e with
  | zero => exact hlo
  | succ k => exact le_of_lt (ilow_prev e k (by omega))

theorem ilow_den_pos (e : ℚ) :
    0 < energy.getD (ilowOf e + 1) 0 - energy.getD (ilowOf e) 0 :=
  sub_pos.mpr (energy_strictInc _ (by have := ilow_le e; omega))

theorem scanLow_eq_find (e : ℚ) : ∀ fuel i : ℕ,
    scanLow e fuel i =
      ((List.range' i fuel).find? fun k => decide (e ≤ energy.getD (k + 1) 0)).getD 57 := by
  intro fuel
  induction fuel with
  | zero => intro i; simp [scanLow]
  | succ n ih =>
    intro i
    rw [List.range'_succ]
    simp only [scanLow]
    by_cases hle : e ≤ energy.getD (i + 1) 0
    · have hfind : List.find? (fun k => decide (e ≤ energy.getD (k + 1) 0))
          (i :: List.range' (i + 1) n) = some i :=
        List.find?_cons_of_pos _ (decide_eq_true hle)
      rw [if_pos hle, hfind]
      rfl
    · have hfind : List.find? (fun k => decide (e ≤ energy.getD (k + 1) 0))
          (i :: List.range' (i + 1) n) =
          List.find? (fun k => decide (e ≤ energy.getD (k + 1) 0)) (List.range' (i + 1) n) :=
        List.find?_cons_of_neg _ (by simpa using hle)
      rw [if_neg hle, hfind]
      exact ih (i + 1)

theorem specIlow_eq (e : ℚ) : specIlow e = ilowOf e := by
  rw [specIlow, ilowOf, scanLow_eq_find e 58 0, List.range_eq_range']

/-- C1: for every requested energy and every material selector, both
cross-section lookups compute their result by the spec algorithm: first
matching lower bin index with default 57, unclamped interpolation
fraction, and linear interpolation on the selected curve. -/
theorem C1_lookup_algorithm (e : ℚ) (s : ℤ) :
    get_elastic_crosssection e s = crossSectionSpec e (elasticTable s) ∧
    get_inelastic_crosssection e s = crossSectionSpec e (inelasticTable s) := by
  constructor <;>
    simp [get_elastic_crosssection, get_inelastic_crosssection, interpolate,
      efracOf, crossSectionSpec, specIlow_eq]

/-! Behaviour of the dispatch chains for selectors outside 0..6: every
`else` branch yields the lead material. -/

theorem get_z_out {s : ℤ} (h : s < 0 ∨ 7 ≤ s) : get_z s = lead.z := by
  have h0 : ¬s = 0 := by omega
  have h1 : ¬s = 1 := by omega
  have h2 : ¬s = 2 := by omega
  have h3 : ¬s = 3 := by omega
  have h4 : ¬s = 4 := by omega
  have h5 : ¬s = 5 := by omega
  have h6 : ¬s = 6 := by omega
  simp [get_z, h0, h1, h2, h3, h4, h5, h6]

theorem get_a_out {s : ℤ} (h : s < 0 ∨ 7 ≤ s) : get_a s = lead.a := by
  have h0 : ¬s = 0 := by omega
  have h1 : ¬s = 1 := by omega
  have h2 : ¬s = 2 := by omega
  have h3 : ¬s = 3 := by omega
  have h4 : ¬s = 4 := by omega
  have h5 : ¬s = 5 := by omega
  have h6 : ¬s = 6 := by omega
  simp [get_a, lead, h0, h1, h2, h3, h4, h5, h6]

theorem get_rho_out {s : ℤ} (h : s < 0 ∨ 7 ≤ s) : get_rho s = lead.rho := by
  have h0 : ¬s = 0 := by omega
  have h1 : ¬s = 1 := by omega
  have h2 : ¬s = 2 := by omega
  have h3 : ¬s = 3 := by omega
  have h4 : ¬s = 4 := by omega
  have h5 : ¬s = 5 := by omega
  have h6 : ¬s = 6 := by omega
  simp [get_rho, h0, h1, h2, h3, h4, h5, h6]

theorem get_radlength_out {s : ℤ} (h : s < 0 ∨ 7 ≤ s) : get_radlength s = lead.radlength := by
  have h0 : ¬s = 0 := by omega
  have h1 : ¬s = 1 := by omega
  have h2 : ¬s = 2 := by omega
  have h3 : ¬s = 3 := by omega
  have h4 : ¬s = 4 := by omega
  have h5 : ¬s = 5 := by omega
  have h6 : ¬s = 6 := by omega
  simp [get_radlength, h0, h1, h2, h3, h4, h5, h6]

theorem elasticTable_out {s : ℤ} (h : s < 0 ∨ 7 ≤ s) : elasticTable s = lead.ecross := by
  have h0 : ¬s = 0 := by omega
  have h1 : ¬s = 1 := by omega
  have h2 : ¬s = 2 := by omega
  have h3 : ¬s = 3 := by omega
  have h4 : ¬s = 4 := by omega
  have h5 : ¬s = 5 := by omega
  have h6 : ¬s = 6 := by omega
  simp [elasticTable, h0, h1, h2, h3, h4, h5, h6]

theorem inelasticTable_out {s : ℤ} (h : s < 0 ∨ 7 ≤ s) : inelasticTable s = lead.icross := by
  have h0 : ¬s = 0 := by omega
  have h1 : ¬s = 1 := by omega
  have h2 : ¬s = 2 := by omega
  have h3 : ¬s = 3 := by omega
  have h4 : ¬s = 4 := by omega
  have h5 : ¬s = 5 := by omega
  have h6 : ¬s = 6 := by omega
  simp [inelasticTable, h0, h1, h2, h3, h4, h5, h6]

/-- C2 counterexample: for selector 99, which is outside 0..7, every
property lookup and both cross-section lookups return the lead values
instead of failing: no InvalidSelectorError exists anywhere in the code,
every operation is total. -/
theorem C2_counterexample :
    get_z 99 = lead.z ∧ get_a 99 = lead.a ∧ get_rho 99 = lead.rho ∧
    get_radlength 99 = lead.radlength ∧
    get_elastic_crosssection 1 99 = interpolate lead.ecross 1 ∧
    get_inelastic_crosssection 1 99 = interpolate lead.icross 1 := by
  refine ⟨rfl, rfl, rfl, rfl, ?_, ?_⟩ <;> rfl

/-- C2 (amended): no lookup ever fails; for every integer selector
outside 0..7 the property lookups and both cross-section lookups return
the lead values, the same values as selector 7 returns. -/
theorem C2_no_failure (s : ℤ) (e : ℚ) (h : s < 0 ∨ 7 < s) :
    get_z s = get_z 7 ∧ get_a s = get_a 7 ∧ get_rho s = get_rho 7 ∧
    get_radlength s = get_radlength 7 ∧
    get_elastic_crosssection e s = get_elastic_crosssection e 7 ∧
    get_inelastic_crosssection e s = get_inelastic_crosssection e 7 := by
  have h7 : (7:ℤ) < 0 ∨ 7 ≤ (7:ℤ) := Or.inr le_rfl
  have hs : s < 0 ∨ 7 ≤ s := by omega
  refine ⟨?_, ?_, ?_, ?_, ?_, ?_⟩
  · rw [get_z_out hs, get_z_out h7]
  · rw [get_a_out hs, get_a_out h7]
  · rw [get_rho_out hs, get_rho_out h7]
  · rw [get_radlength_out hs, get_radlength_out h7]
  · show interpolate (elasticTable s) e = interpolate (elasticTable 7) e
    rw [elasticTable_out hs, elasticTable_out h7]
  · show interpolate (inelasticTable s) e = interpolate (inelasticTable 7) e
    rw [inelasticTable_out hs, inelasticTable_out h7]

/-- C2 witness: instantiation of the amended claim at selector 8 and
energy 1 GeV. -/
theorem C2_witness :
    ((8:ℤ) < 0 ∨ 7 < (8:ℤ)) ∧
    (get_z 8 = get_z 7 ∧ get_a 8 = get_a 7 ∧ get_rho 8 = get_rho 7 ∧
      get_radlength 8 = get_radlength 7 ∧
      get_elastic_crosssection 1 8 = get_elastic_crosssection 1 7 ∧
      get_inelastic_crosssection 1 8 = get_inelastic_crosssection 1 7) :=
  ⟨by decide, C2_no_failure 8 1 (by decide)⟩

/-- C3: every integer selector not in 0..6, negative or at least 7,
receives exactly the lead values from every property lookup and both
cross-section lookups, with no error; in particular the results for
selectors 7, 99 and -1 coincide. -/
theorem C3_lead_fallback (s : ℤ) (h : s < 0 ∨ 7 ≤ s) (e : ℚ) :
    (get_z s = lead.z ∧ get_a s = lead.a ∧ get_rho s = lead.rho ∧
      get_radlength s = lead.radlength ∧
      get_elastic_crosssection e s = interpolate lead.ecross e ∧
      get_inelastic_crosssection e s = interpolate lead.icross e) ∧
    (get_z 7 = get_z 99 ∧ get_z 99 = get_z (-1) ∧
      get_a 7 = get_a 99 ∧ get_a 99 = get_a (-1) ∧
      get_rho 7 = get_rho 99 ∧ get_rho 99 = get_rho (-1) ∧
      get_radlength 7 = get_radlength 99 ∧ get_radlength 99 = get_radlength (-1) ∧
      get_elastic_crosssection e 7 = get_elastic_crosssection e 99 ∧
      get_elastic_crosssection e 99 = get_elastic_crosssection e (-1) ∧
      get_inelastic_crosssection e 7 = get_inelastic_crosssection e 99 ∧
      get_inelastic_crosssection e 99 = get_inelastic_crosssection e (-1)) := by
  have h7 : (7:ℤ) < 0 ∨ 7 ≤ (7:ℤ) := by omega
  have h99 : (99:ℤ) < 0 ∨ 7 ≤ (99:ℤ) := by omega
  have hm1 : (-1:ℤ) < 0 ∨ 7 ≤ (-1:ℤ) := by omega
  constructor
  · refine ⟨get_z_out h, get_a_out h, get_rho_out h, get_radlength_out h, ?_, ?_⟩
    · show interpolate (elasticTable s) e = interpolate lead.ecross e
      rw [elasticTable_out h]
    · show interpolate (inelasticTable s) e = interpolate lead.icross e
      rw [inelasticTable_out h]
  · refine ⟨?_, ?_, ?_, ?_, ?_, ?_, ?_, ?_, ?_, ?_, ?_, ?_⟩
    · rw [get_z_out h7, get_z_out h99]
    · rw [get_z_out h99, get_z_out hm1]
    · rw [get_a_out h7, get_a_out h99]
    · rw [get_a_out h99, get_a_out hm1]
    · rw [get_rho_out h7, get_rho_out h99]
    · rw [get_rho_out h99, get_rho_out hm1]
    · rw [get_radlength_out h7, get_radlength_out h99]
    · rw [get_radlength_out h99, get_radlength_out hm1]
    · show interpolate (elasticTable 7) e = interpolate (elasticTable 99) e
      rw [elasticTable_out h7, elasticTable_out h99]
    · show interpolate (elasticTable 99) e = interpolate (elasticTable (-1)) e
      rw [elasticTable_out h99, elasticTable_out hm1]
    · show interpolate (inelasticTable 7) e = interpolate (inelasticTable 99) e
      rw [inelasticTable_out h7, inelasticTable_out h99]
    · show interpolate (inelasticTable 99) e = interpolate (inelasticTable (-1)) e
      rw [inelasticTable_out h99, inelasticTable_out hm1]

/-- C3 witness: instantiation at selector 99 and energy 1 GeV. -/
theorem C3_witness :
    ((99:ℤ) < 0 ∨ 7 ≤ (99:ℤ)) ∧
    ((get_z 99 = lead.z ∧ get_a 99 = lead.a ∧ get_rho 99 = lead.rho ∧
      get_radlength 99 = lead.radlength ∧
      get_elastic_crosssection 1 99 = interpolate lead.ecross 1 ∧
      get_inelastic_crosssection 1 99 = interpolate lead.icross 1) ∧
    (get_z 7 = get_z 99 ∧ get_z 99 = get_z (-1) ∧
      get_a 7 = get_a 99 ∧ get_a 99 = get_a (-1) ∧
      get_rho 7 = get_rho 99 ∧ get_rho 99 = get_rho (-1) ∧
      get_radlength 7 = get_radlength 99 ∧ get_radlength 99 = get_radlength (-1) ∧
      get_elastic_crosssection 1 7 = get_elastic_crosssection 1 99 ∧
      get_elastic_crosssection 1 99 = get_elastic_crosssection 1 (-1) ∧
      get_inelastic_crosssection 1 7 = get_inelastic_crosssection 1 99 ∧
      get_inelastic_crosssection 1 99 = get_inelastic_crosssection 1 (-1))) :=
  ⟨by decide, C3_lead_fallback 99 (by decide) 1⟩

/-- C9: on selectors 0..7 the four convenience accessors agree with the
corresponding field of the registered material record selected by the
spec-level properties mapping. -/
theorem C9_accessors_are_projections (s : ℤ) (hlo : 0 ≤ s) (hhi : s ≤ 7) :
    get_z s = (propertiesSpec s).z ∧ get_a s = (propertiesSpec s).a ∧
    get_rho s = (propertiesSpec s).rho ∧
    get_radlength s = (propertiesSpec s).radlength := by
  interval_cases s <;> exact ⟨rfl, rfl, rfl, rfl⟩

/-- C9 witness: instantiation at selector 3 (copper). -/
theorem C9_witness :
    (0:ℤ) ≤ 3 ∧ (3:ℤ) ≤ 7 ∧
    (get_z 3 = (propertiesSpec 3).z ∧ get_a 3 = (propertiesSpec 3).a ∧
      get_rho 3 = (propertiesSpec 3).rho ∧
      get_radlength 3 = (propertiesSpec 3).radlength) :=
  ⟨by decide, by decide, C9_accessors_are_projections 3 (by decide) (by decide)⟩

/-- One unfolding step of the bin scan, stated for rewriting at numeric
fuel values. -/
theorem scanLow_succ (e : ℚ) (fuel i : ℕ) :
    scanLow e (fuel + 1) i =
      if e ≤ energy.getD (i + 1) 0 then i else scanLow e fuel (i + 1) := rfl

/-- The elastic table selected for copper, the source list `z29_elastic`,
has only 58 entries; every other selected table has 59. -/
theorem elasticTable_length (s : ℤ) :
    (elasticTable s).length = if s = 3 then 58 else 59 := by
  unfold elasticTable
  split_ifs <;> first | rfl | omega

theorem inelasticTable_length (s : ℤ) : (inelasticTable s).length = 59 := by
  unfold inelasticTable
  split_ifs <;> rfl

theorem readPair_eq_some {tab : List ℚ} {i : ℕ} (h : i + 1 < tab.length) :
    readPair tab i = some (tab.getD i 0, tab.getD (i + 1) 0) := by
  have h1 : tab.get? i = some (tab.getD i 0) := by
    rw [List.get?_eq_getElem?, List.getElem?_eq_getElem (by omega),
      List.getD_eq_getElem tab 0 (by omega)]
  have h2 : tab.get? (i + 1) = some (tab.getD (i + 1) 0) := by
    rw [List.get?_eq_getElem?, List.getElem?_eq_getElem h,
      List.getD_eq_getElem tab 0 h]
  unfold readPair
  rw [h1, h2]
  rfl

theorem checked_elastic_eq (e : ℚ) (s : ℤ)
    (h : ilowOf e + 1 < (elasticTable s).length) :
    get_elastic_crosssection? e s = some (get_elastic_crosssection e s) := by
  unfold get_elastic_crosssection? get_elastic_crosssection interpolate
  rw [readPair_eq_some h]
  rfl

theorem checked_inelastic_eq (e : ℚ) (s : ℤ)
    (h : ilowOf e + 1 < (inelasticTable s).length) :
    get_inelastic_crosssection? e s = some (get_inelastic_crosssection e s) := by
  unfold get_inelastic_crosssection? get_inelastic_crosssection interpolate
  rw [readPair_eq_some h]
  rfl

/-- C5 counterexample: at requested energy 0 the interpolation fraction
computed during the elastic lookup is negative (it equals -1). -/
theorem C5_counterexample :
    efracOf 0 < 0 ∧ efracOf 0 = -1 ∧
    get_elastic_crosssection 0 0 =
      (elasticTable 0).getD (ilowOf 0) 0 +
        efracOf 0 * ((elasticTable 0).getD (ilowOf 0 + 1) 0 - (elasticTable 0).getD (ilowOf 0) 0) := by
  refine ⟨?_, ?_, rfl⟩ <;> with_unfolding_all decide

/-- C5 (amended): the interpolation fraction is never negative for
requested energies at or above the first table entry; below the first
table entry it is negative, reached through bin index 0, not through the
default branch. -/
theorem C5_efrac_nonneg (e : ℚ) (h : energy.getD 0 0 ≤ e) : 0 ≤ efracOf e := by
  unfold efracOf
  exact div_nonneg (sub_nonneg.mpr (ilow_lower e h)) (le_of_lt (ilow_den_pos e))

/-- C5 witness: instantiation at energy 1 GeV. -/
theorem C5_witness : energy.getD 0 0 ≤ 1 ∧ 0 ≤ efracOf 1 :=
  ⟨by with_unfolding_all decide, C5_efrac_nonneg 1 (by with_unfolding_all decide)⟩

/-- C10: for every requested energy strictly below the first table entry
and every selector, both lookups succeed, the scan selects bin index 0,
the interpolation fraction is strictly negative, and the result is the
linear extrapolation from the first two table points. -/
theorem C10_below_table (e : ℚ) (s : ℤ) (h : e < energy.getD 0 0) :
    ilowOf e = 0 ∧ efracOf e < 0 ∧
    get_elastic_crosssection? e s = some (get_elastic_crosssection e s) ∧
    get_inelastic_crosssection? e s = some (get_inelastic_crosssection e s) ∧
    get_elastic_crosssection e s =
      (elasticTable s).getD 0 0 +
        efracOf e * ((elasticTable s).getD 1 0 - (elasticTable s).getD 0 0) ∧
    get_inelastic_crosssection e s =
      (inelasticTable s).getD 0 0 +
        efracOf e * ((inelasticTable s).getD 1 0 - (inelasticTable s).getD 0 0) := by
  have h01 : energy.getD 0 0 < energy.getD 1 0 := energy_strictInc 0 (by omega)
  have hle : e ≤ energy.getD (0 + 1) 0 := le_of_lt (lt_trans h h01)
  have hil : ilowOf e = 0 := by
    have hstep : ilowOf e = scanLow e (57 + 1) 0 := rfl
    rw [hstep, scanLow_succ, if_pos hle]
  refine ⟨hil, ?_, ?_, ?_, ?_, ?_⟩
  · unfold efracOf
    rw [hil]
    exact div_neg_of_neg_of_pos (sub_neg.mpr h) (sub_pos.mpr h01)
  · refine checked_elastic_eq e s ?_
    rw [elasticTable_length, hil]
    split_ifs <;> omega
  · refine checked_inelastic_eq e s ?_
    rw [inelasticTable_length, hil]
    omega
  · show interpolate (elasticTable s) e = _
    unfold interpolate
    rw [hil]
  · show interpolate (inelasticTable s) e = _
    unfold interpolate
    rw [hil]

/-- C10 witness: instantiation at energy 0 and selector 5. -/
theorem C10_witness :
    (0:ℚ) < energy.getD 0 0 ∧
    (ilowOf 0 = 0 ∧ efracOf 0 < 0 ∧
      get_elastic_crosssection? 0 5 = some (get_elastic_crosssection 0 5) ∧
      get_inelastic_crosssection? 0 5 = some (get_inelastic_crosssection 0 5) ∧
      get_elastic_crosssection 0 5 =
        (elasticTable 5).getD 0 0 +
          efracOf 0 * ((elasticTable 5).getD 1 0 - (elasticTable 5).getD 0 0) ∧
      get_inelastic_crosssection 0 5 =
        (inelasticTable 5).getD 0 0 +
          efracOf 0 * ((inelasticTable 5).getD 1 0 - (inelasticTable 5).getD 0 0)) :=
  ⟨by with_unfolding_all decide, C10_below_table 0 5 (by with_unfolding_all decide)⟩

set_option maxRecDepth 100000 in
/-- C7: the safety claim fails on the code: the elastic table of
selector 3 (copper) has only 58 entries, so the lookup at 2.2 GeV, where
the scan selects ilow = 57 and reads index 58, goes out of bounds
(IndexError in the source, `none` here). Every inelastic lookup, every
elastic lookup for the other selectors, and the interpolation divisor
are safe as claimed. -/
theorem C7_copper_elastic_oob :
    (elasticTable 3).length = 58 ∧ ilowOf 2.2 = 57 ∧
    get_elastic_crosssection? 2.2 3 = none ∧
    (∀ (e : ℚ) (s : ℤ), (get_inelastic_crosssection? e s).isSome = true) ∧
    (∀ (e : ℚ) (s : ℤ), ¬s = 3 → (get_elastic_crosssection? e s).isSome = true) ∧
    (∀ e : ℚ, ilowOf e ≤ 57 ∧
      energy.getD (ilowOf e + 1) 0 - energy.getD (ilowOf e) 0 ≠ 0) ∧
    energy.length = 59 := by
  refine ⟨rfl, by with_unfolding_all decide, by with_unfolding_all decide,
    ?_, ?_, fun e => ⟨ilow_le e, ne_of_gt (ilow_den_pos e)⟩, rfl⟩
  · intro e s
    rw [checked_inelastic_eq e s (by rw [inelasticTable_length]; have := ilow_le e; omega)]
    rfl
  · intro e s hs
    rw [checked_elastic_eq e s
      (by rw [elasticTable_length, if_neg hs]; have := ilow_le e; omega)]
    rfl

set_option maxRecDepth 100000 in
theorem ilow_at : ∀ j : ℕ, j < 59 → ilowOf (energy.getD j 0) = j - 1 := by
  with_unfolding_all decide

set_option maxRecDepth 100000 in
theorem efrac_at : ∀ j : ℕ, j < 59 →
    efracOf (energy.getD j 0) = if j = 0 then 0 else 1 := by
  with_unfolding_all decide

theorem interpolate_at_point (tab : List ℚ) (j : ℕ) (hj : j < 59) :
    interpolate tab (energy.getD j 0) = tab.getD j 0 := by
  unfold interpolate
  rcases Nat.eq_zero_or_pos j with h0 | hpos
  · subst h0
    rw [ilow_at 0 hj, efrac_at 0 hj]
    simp
  · have hef : efracOf (energy.getD j 0) = 1 := by
      rw [efrac_at j hj, if_neg (by omega)]
    have hidx : ilowOf (energy.getD j 0) + 1 = j := by
      rw [ilow_at j hj]; omega
    rw [ilow_at j hj, hef] at *
    rw [show j - 1 + 1 = j by omega]
    ring

/-- C4 (amended): for every selector in 0..7 and every tabulated energy
point, the inelastic lookup returns exactly the tabulated curve value,
and so does the elastic lookup except for selector 3 at index 58, where
the 58-entry elastic table of copper makes the read of index 58 fail;
the interpolation fraction is 0 at index 0 and 1 at every later index,
where the scan selects the previous bin. -/
theorem C4_tabulated_points (s : ℤ) (hlo : 0 ≤ s) (hhi : s ≤ 7) (j : ℕ) (hj : j < 59) :
    get_inelastic_crosssection? (energy.getD j 0) s =
      some ((inelasticTable s).getD j 0) ∧
    (¬(s = 3 ∧ j = 58) →
      get_elastic_crosssection? (energy.getD j 0) s =
        some ((elasticTable s).getD j 0)) ∧
    efracOf (energy.getD j 0) = if j = 0 then 0 else 1 := by
  have hi : ilowOf (energy.getD j 0) = j - 1 := ilow_at j hj
  refine ⟨?_, ?_, efrac_at j hj⟩
  · rw [checked_inelastic_eq _ s (by rw [inelasticTable_length, hi]; omega)]
    exact congrArg some (interpolate_at_point (inelasticTable s) j hj)
  · intro hne
    have hlen : ilowOf (energy.getD j 0) + 1 < (elasticTable s).length := by
      rw [elasticTable_length, hi]
      by_cases h3 : s = 3
      · have : ¬j = 58 := fun hj58 => hne ⟨h3, hj58⟩
        rw [if_pos h3]
        omega
      · rw [if_neg h3]
        omega
    rw [checked_elastic_eq _ s hlen]
    exact congrArg some (interpolate_at_point (elasticTable s) j hj)

set_option maxRecDepth 100000 in
/-- C4 counterexample: the energy 0.006 GeV is the tabulated point of
index 11, yet the interpolation fraction there is 1, not 0; moreover at
the tabulated point of index 58 the elastic lookup for selector 3 fails
instead of returning a tabulated value. -/
theorem C4_counterexample :
    (energy.getD 11 0 = 0.006 ∧ efracOf 0.006 = 1 ∧ ¬efracOf 0.006 = 0) ∧
    get_elastic_crosssection? (energy.getD 58 0) 3 = none := by
  refine ⟨⟨?_, ?_, ?_⟩, ?_⟩ <;> with_unfolding_all decide

set_option maxRecDepth 100000 in
/-- C4 witness: instantiation at selector 0 (carbon) and table index 11,
whose energy is 0.006 GeV and whose elastic value is 0.395. -/
theorem C4_witness :
    (0:ℤ) ≤ 0 ∧ (0:ℤ) ≤ 7 ∧ 11 < 59 ∧
    energy.getD 11 0 = 0.006 ∧ (elasticTable 0).getD 11 0 = 0.395 ∧
    (get_inelastic_crosssection? (energy.getD 11 0) 0 =
        some ((inelasticTable 0).getD 11 0) ∧
      (¬((0:ℤ) = 3 ∧ 11 = 58) →
        get_elastic_crosssection? (energy.getD 11 0) 0 =
          some ((elasticTable 0).getD 11 0)) ∧
      efracOf (energy.getD 11 0) = if 11 = 0 then 0 else 1) :=
  ⟨by decide, by decide, by decide, by with_unfolding_all decide,
    by with_unfolding_all decide,
    C4_tabulated_points 0 (by decide) (by decide) 11 (by decide)⟩

/-- C6 counterexample: the stored nuclear radius parameter of copper is
0.94 times the cube root of 63.55, not of its stored atomic weight
63.546, and cube root is strictly monotone, so the two differ. -/
theorem C6_counterexample : copper.R ≠ 0.94 * (copper.a : ℝ) ^ ((1 : ℝ) / 3) := by
  have hRarg : copper.Rarg = (63.55 : ℚ) := rfl
  have ha : copper.a = (63.546 : ℚ) := rfl
  unfold MP.R
  rw [hRarg, ha]
  intro hEq
  have h := mul_left_cancel₀ (by norm_num : (0.94 : ℝ) ≠ 0) hEq
  have hlt : ((63.546 : ℚ) : ℝ) ^ ((1 : ℝ) / 3) < ((63.55 : ℚ) : ℝ) ^ ((1 : ℝ) / 3) := by
    apply Real.rpow_lt_rpow
    · norm_num
    · norm_num
    · norm_num
  exact ne_of_gt hlt h

/-- C6 (amended): for carbon, aluminum, iron, tantalum, tungsten,
platinum and lead, the stored nuclear radius parameter equals 0.94 times
the cube root of the stored atomic weight; for copper it equals 0.94
times the cube root of 63.55 while the stored atomic weight is 63.546. -/
theorem C6_nuclear_radius :
    carbon.R = 0.94 * (carbon.a : ℝ) ^ ((1 : ℝ) / 3) ∧
    aluminum.R = 0.94 * (aluminum.a : ℝ) ^ ((1 : ℝ) / 3) ∧
    iron.R = 0.94 * (iron.a : ℝ) ^ ((1 : ℝ) / 3) ∧
    tantalum.R = 0.94 * (tantalum.a : ℝ) ^ ((1 : ℝ) / 3) ∧
    tungstun.R = 0.94 * (tungstun.a : ℝ) ^ ((1 : ℝ) / 3) ∧
    platinum.R = 0.94 * (platinum.a : ℝ) ^ ((1 : ℝ) / 3) ∧
    lead.R = 0.94 * (lead.a : ℝ) ^ ((1 : ℝ) / 3) ∧
    copper.R = 0.94 * ((63.55 : ℚ) : ℝ) ^ ((1 : ℝ) / 3) ∧
    copper.a = 63.546 ∧ ¬copper.Rarg = copper.a := by
  refine ⟨rfl, rfl, rfl, rfl, rfl, rfl, rfl, rfl, rfl, ?_⟩
  with_unfolding_all decide

/-! Monotonicity preservation of the interpolation. -/

theorem getD_chain (tab : List ℚ) (a : ℕ) : ∀ b : ℕ, a ≤ b →
    (∀ j : ℕ, a ≤ j → j < b → tab.getD j 0 ≤ tab.getD (j + 1) 0) →
    tab.getD a 0 ≤ tab.getD b 0 := by
  intro b
  induction b with
  | zero =>
    intro hab _
    have h0 : a = 0 := by omega
    rw [h0]
  | succ n ih =>
    intro hab h
    rcases Nat.lt_or_ge a (n + 1) with hlt | hge
    · have ha_n : a ≤ n := by omega
      refine le_trans (ih ha_n (fun j hj1 hj2 => h j hj1 (by omega))) (h n ?_ ?_) <;> omega
    · have ha : a = n + 1 := by omega
      rw [ha]

theorem interpolate_mono (tab : List ℚ) (e1 e2 : ℚ) (h12 : e1 < e2)
    (hlo : energy.getD 0 0 ≤ e1) (hhi : e2 ≤ energy.getD 58 0)
    (hmono : ∀ j : ℕ, j < 58 → ilowOf e1 ≤ j → j ≤ ilowOf e2 →
      tab.getD j 0 ≤ tab.getD (j + 1) 0) :
    interpolate tab e1 ≤ interpolate tab e2 := by
  have hi12 : ilowOf e1 ≤ ilowOf e2 := ilow_mono (le_of_lt h12)
  have hi1le : ilowOf e1 ≤ 57 := ilow_le e1
  have hi2le : ilowOf e2 ≤ 57 := ilow_le e2
  have hD1 : 0 < energy.getD (ilowOf e1 + 1) 0 - energy.getD (ilowOf e1) 0 :=
    ilow_den_pos e1
  have hD2 : 0 < energy.getD (ilowOf e2 + 1) 0 - energy.getD (ilowOf e2) 0 :=
    ilow_den_pos e2
  have hE1le : e1 ≤ energy.getD (ilowOf e1 + 1) 0 :=
    ilow_found e1 (le_trans (le_of_lt h12) hhi)
  have hE1ge : energy.getD (ilowOf e1) 0 ≤ e1 := ilow_lower e1 hlo
  have hd1 : tab.getD (ilowOf e1) 0 ≤ tab.getD (ilowOf e1 + 1) 0 :=
    hmono (ilowOf e1) (by omega) le_rfl hi12
  rcases eq_or_lt_of_le hi12 with heq | hlt
  · unfold interpolate efracOf
    rw [← heq]
    have hf : (e1 - energy.getD (ilowOf e1) 0) /
          (energy.getD (ilowOf e1 + 1) 0 - energy.getD (ilowOf e1) 0) ≤
        (e2 - energy.getD (ilowOf e1) 0) /
          (energy.getD (ilowOf e1 + 1) 0 - energy.getD (ilowOf e1) 0) := by
      rw [div_le_div_iff₀ hD1 hD1]
      nlinarith
    have hstep := mul_le_mul_of_nonneg_right hf (sub_nonneg.mpr hd1)
    linarith
  · have h1 : interpolate tab e1 ≤ tab.getD (ilowOf e1 + 1) 0 := by
      unfold interpolate efracOf
      have hf1 : (e1 - energy.getD (ilowOf e1) 0) /
          (energy.getD (ilowOf e1 + 1) 0 - energy.getD (ilowOf e1) 0) ≤ 1 :=
        (div_le_one hD1).mpr (by linarith)
      have hprod := mul_le_mul_of_nonneg_right hf1 (sub_nonneg.mpr hd1)
      rw [one_mul] at hprod
      linarith
    have h3 : tab.getD (ilowOf e1 + 1) 0 ≤ tab.getD (ilowOf e2) 0 :=
      getD_chain tab (ilowOf e1 + 1) (ilowOf e2) (by omega)
        (fun j hj1 hj2 => hmono j (by omega) (by omega) (by omega))
    have h2 : tab.getD (ilowOf e2) 0 ≤ interpolate tab e2 := by
      unfold interpolate efracOf
      have hE2gt : energy.getD (ilowOf e2) 0 < e2 := by
        have hk := ilow_prev e2 (ilowOf e2 - 1) (by omega)
        have hrw : ilowOf e2 - 1 + 1 = ilowOf e2 := by omega
        rw [hrw] at hk
        exact hk
      have hf2 : 0 ≤ (e2 - energy.getD (ilowOf e2) 0) /
          (energy.getD (ilowOf e2 + 1) 0 - energy.getD (ilowOf e2) 0) :=
        div_nonneg (by linarith) (le_of_lt hD2)
      have hd2 : tab.getD (ilowOf e2) 0 ≤ tab.getD (ilowOf e2 + 1) 0 :=
        hmono (ilowOf e2) (by omega) (by omega) le_rfl
      have hprod := mul_nonneg hf2 (sub_nonneg.mpr hd2)
      linarith
    linarith

/-- C8: for any two energies inside the table range, if the selected
curve is monotonically non-decreasing over the bins their lookups span,
the interpolated results preserve the ordering, for the elastic and for
the inelastic lookup. -/
theorem C8_monotone_preservation (s : ℤ) (e1 e2 : ℚ) (h12 : e1 < e2)
    (hlo : energy.getD 0 0 ≤ e1) (hhi : e2 ≤ energy.getD 58 0) :
    ((∀ j : ℕ, j < 58 → ilowOf e1 ≤ j → j ≤ ilowOf e2 →
        (elasticTable s).getD j 0 ≤ (elasticTable s).getD (j + 1) 0) →
      get_elastic_crosssection e1 s ≤ get_elastic_crosssection e2 s) ∧
    ((∀ j : ℕ, j < 58 → ilowOf e1 ≤ j → j ≤ ilowOf e2 →
        (inelasticTable s).getD j 0 ≤ (inelasticTable s).getD (j + 1) 0) →
      get_inelastic_crosssection e1 s ≤ get_inelastic_crosssection e2 s) :=
  ⟨fun h => interpolate_mono (elasticTable s) e1 e2 h12 hlo hhi h,
    fun h => interpolate_mono (inelasticTable s) e1 e2 h12 hlo hhi h⟩

set_option maxRecDepth 400000 in
/-- C8 witness: instantiation at selector 0 (carbon) with energies
0.01 GeV and 0.02 GeV, a region where both carbon curves are
non-decreasing. -/
theorem C8_witness :
    (0.01 : ℚ) < 0.02 ∧ energy.getD 0 0 ≤ 0.01 ∧ (0.02 : ℚ) ≤ energy.getD 58 0 ∧
    (∀ j : ℕ, j < 58 → ilowOf 0.01 ≤ j → j ≤ ilowOf 0.02 →
      (elasticTable 0).getD j 0 ≤ (elasticTable 0).getD (j + 1) 0) ∧
    get_elastic_crosssection 0.01 0 ≤ get_elastic_crosssection 0.02 0 ∧
    (∀ j : ℕ, j < 58 → ilowOf 0.01 ≤ j → j ≤ ilowOf 0.02 →
      (inelasticTable 0).getD j 0 ≤ (inelasticTable 0).getD (j + 1) 0) ∧
    get_inelastic_crosssection 0.01 0 ≤ get_inelastic_crosssection 0.02 0 :=
  ⟨by with_unfolding_all decide, by with_unfolding_all decide,
    by with_unfolding_all decide, by with_unfolding_all decide,
    (C8_monotone_preservation 0 0.01 0.02 (by with_unfolding_all decide)
        (by with_unfolding_all decide) (by with_unfolding_all decide)).1
      (by with_unfolding_all decide),
    by with_unfolding_all decide,
    (C8_monotone_preservation 0 0.01 0.02 (by with_unfolding_all decide)
        (by with_unfolding_all decide) (by with_unfolding_all decide)).2
      (by with_unfolding_all decide)⟩

end CrossSections
